import Mathlib

/-!
Verification of the WhatsTheMove move-planning backend against its design
specification.  Each Python source function referenced by the specification is
shallowly embedded as an executable Lean definition; floats from the source
become exact rationals (`ℚ`), Python dicts become association lists looked up
by first key occurrence, fallible operations return `Option`/`Except`.
-/

namespace WTM

/-! ## Distance bands (backend/transportation/air_model.py, price_for_distance)

The source labels 500-mile groups: for `group` it prints the label
`f"{(group-1)*500}-{group*500-1}"`, e.g. group 1 ↔ "0-499", group 2 ↔ "500-999".
-/

/-- Lower end of the 500-mile band of a group: `low = (group - 1) * 500`. -/
def band_low (g : Nat) : Nat := (g - 1) * 500

/-- Upper end of the band: `high = group * 500 - 1`. -/
def band_high (g : Nat) : Nat := g * 500 - 1

/-- A mileage lies in the band of group `g`. -/
def in_band (g m : Nat) : Prop := band_low g ≤ m ∧ m ≤ band_high g

instance (g m : Nat) : Decidable (in_band g m) := by
  unfold in_band; exact inferInstance

/-- The group whose band contains `m` miles (the inverse of the band labels):
0-499 ↦ 1, 500-999 ↦ 2, and so on. -/
def distance_bucket (m : Nat) : Nat := m / 500 + 1

/-- Number of 500-mile groups covering `max_distance` miles, from the source:
`num_groups = max(1, int((max_distance - 1) // 500) + 1)`. -/
def num_groups (max_distance : Nat) : Nat := max 1 ((max_distance - 1) / 500 + 1)

/-! ## Air fare model (backend/transportation/air_model.py, AirModel) -/

/-- One DB1B ticket row, with the columns AirModel reads.  Columns that the
source coerces with `errors="coerce"` (so a cell can be NaN) are `Option ℚ`;
`none` stands for a missing/unparsable cell. -/
structure TicketRecord where
  dollar_cred : Int
  bulk_fare : Int
  itin_fare : Option ℚ
  miles_flown : Option ℚ
  itin_geo_type : Int
  online : Int
  itin_yield : Option ℚ
  reporting_carrier : String
  distance_group : Option Int
  roundtrip : Int
  passengers : ℚ

/-- Pandas comparison `x > 0` on a possibly-NaN cell: NaN compares false. -/
def pos_opt (x : Option ℚ) : Bool :=
  match x with
  | some v => decide (0 < v)
  | none => false

/-- The cleaning filter of `AirModel.__init__`: the five validity flags plus
positive fare and miles, and the subsequent `dropna` on `ITIN_YIELD`
(the `dropna` on `MILES_FLOWN` is subsumed by `MILES_FLOWN > 0`). -/
def validRecord (r : TicketRecord) : Bool :=
  r.dollar_cred == 1 && r.bulk_fare == 0 && pos_opt r.itin_fare &&
    pos_opt r.miles_flown && r.itin_geo_type == 1 && r.online == 1 &&
    r.itin_yield.isSome

/-- Insert into an ascending list, before the first element that is ≥. -/
def insertQ (x : ℚ) : List ℚ → List ℚ
  | [] => [x]
  | y :: ys => if x ≤ y then x :: y :: ys else y :: insertQ x ys

/-- Ascending sort of rationals (insertion sort). -/
def sortQ (l : List ℚ) : List ℚ := l.foldr insertQ []

/-- Median of a list of rationals, as pandas computes it: sort, middle element
for odd length, mean of the two middles for even length.  Pandas yields NaN on
an empty series; that undefined value is `none` here. -/
def median (l : List ℚ) : Option ℚ :=
  let s := sortQ l
  let n := s.length
  if n = 0 then none
  else if n % 2 = 1 then s.get? (n / 2)
  else
    match s.get? (n / 2 - 1), s.get? (n / 2) with
    | some a, some b => some ((a + b) / 2)
    | _, _ => none

/-- Python `dict.get(k)`: the value at the first matching key, or `none`. -/
def dget {α β : Type} [BEq α] (l : List (α × β)) (k : α) : Option β :=
  (l.find? (fun p => p.1 == k)).map (fun p => p.2)

/-- Python `dict.get(k, d)`: lookup with a default. -/
def dgetD {α β : Type} [BEq α] (l : List (α × β)) (k : α) (d : β) : β :=
  (dget l k).getD d

/-- Distinct elements of the second list not already in the first, keeping
first occurrences. -/
def dedupAux {α : Type} [BEq α] : List α → List α → List α
  | _, [] => []
  | seen, x :: xs =>
    if seen.contains x then dedupAux seen xs
    else x :: dedupAux (x :: seen) xs

/-- Distinct elements of a list, keeping first occurrences (the key set of a
grouped dict; the source's pandas key ordering only affects dict iteration
order, never a lookup). -/
def dedupKeys {α : Type} [BEq α] (l : List α) : List α := dedupAux [] l

/-- Embeds `AirModel.make_multiplier`: group the cleaned rows by a key and map each
key to (median yield of the group) / base.  Keys that are NaN in the source are
`none` and are dropped, as pandas `groupby` drops them. -/
def make_multiplier {κ : Type} [BEq κ] (df : List TicketRecord) (base : ℚ)
    (key : TicketRecord → Option κ) : List (κ × ℚ) :=
  (dedupKeys (df.filterMap key)).filterMap (fun k =>
    (median ((df.filter (fun r => key r == some k)).filterMap
      (fun r => r.itin_yield))).map (fun m => (k, m / base)))

/-- The multiplier state `price_for_distance` consumes: a defined (non-NaN)
base cost-per-mile with the derived lookup tables — the normal case of a
nonempty cleaned dataset. -/
structure AirModel where
  base_cpm : ℚ
  carrier_mult_full : List (String × ℚ)
  top_8_carriers : List String
  carrier_mult : List (String × ℚ)
  dist_mult : List (Int × ℚ)
  roundtrip_mult : List (Int × ℚ)

/-- Exactly the state `AirModel.__init__` leaves on the instance.
Construction always completes — pandas never raises here: on an empty
cleaned set the base median is NaN, modelled `none` (the dataframe is then
empty, so every groupby dict and the top-8 list are empty too, which is why
only the base itself can be undefined). -/
structure AirModelState where
  base_cpm : Option ℚ
  carrier_mult_full : List (String × ℚ)
  top_8_carriers : List String
  carrier_mult : List (String × ℚ)
  dist_mult : List (Int × ℚ)
  roundtrip_mult : List (Int × ℚ)

/-- Total passengers per carrier over the cleaned rows
(`df.groupby("REPORTING_CARRIER")["PASSENGERS"].sum()`). -/
def carrier_passengers (df : List TicketRecord) : List (String × ℚ) :=
  (dedupKeys (df.map (fun r => r.reporting_carrier))).map (fun c =>
    (c, ((df.filter (fun r => r.reporting_carrier == c)).map
      (fun r => r.passengers)).sum))

/-- Insert into a list sorted descending by the count, before the first
element with a smaller-or-equal count (`sort_values(ascending=False)`; the
source leaves tie order unspecified). -/
def insertDesc (x : String × ℚ) : List (String × ℚ) → List (String × ℚ)
  | [] => [x]
  | y :: ys => if y.2 ≤ x.2 then x :: y :: ys else y :: insertDesc x ys

/-- The cleaned record set (`self.df` after filtering). -/
def air_df (records : List TicketRecord) : List TicketRecord :=
  records.filter validRecord

/-- The yield column of the cleaned rows. -/
def air_yields (df : List TicketRecord) : List ℚ :=
  df.filterMap (fun r => r.itin_yield)

/-- Embeds `AirModel.__init__` as the total constructor it is: clean the
rows, take the median yield as base cost-per-mile (`none`, i.e. pandas NaN,
when no row survives the filter — the object is still built, only unusable),
then derive every multiplier table exactly as the source does.  The divisor
`(median ...).getD 0` is consumed only inside a group, and a group exists
only when the cleaned set is nonempty, where the median is defined and the
default unreachable. -/
def air_model_init (records : List TicketRecord) : AirModelState :=
  { base_cpm := median (air_yields (air_df records))
    carrier_mult_full := make_multiplier (air_df records)
      ((median (air_yields (air_df records))).getD 0)
      (fun r => some r.reporting_carrier)
    top_8_carriers :=
      (((carrier_passengers (air_df records)).foldr insertDesc []).take 8).map
        (fun p => p.1)
    -- source: self.carrier_mult[c] = self.carrier_mult_full.get(c);
    -- every top-8 carrier comes from df, so the lookup always hits
    carrier_mult :=
      ((((carrier_passengers (air_df records)).foldr insertDesc []).take 8).map
        (fun p => p.1)).filterMap (fun c =>
          (dget (make_multiplier (air_df records)
            ((median (air_yields (air_df records))).getD 0)
            (fun r => some r.reporting_carrier)) c).map (fun v => (c, v)))
    dist_mult := make_multiplier (air_df records)
      ((median (air_yields (air_df records))).getD 0)
      (fun r => r.distance_group)
    roundtrip_mult := make_multiplier (air_df records)
      ((median (air_yields (air_df records))).getD 0)
      (fun r => some r.roundtrip) }

/-- Embeds `AirModel.carrier_names` (carrier code to display name, top 8). -/
def carrier_names : List (String × String) :=
  [("HA", "Hawaiian Airlines"), ("WN", "Southwest Airlines"),
   ("AS", "Alaska Airlines"), ("UA", "United Airlines"),
   ("B6", "JetBlue Airways"), ("DL", "Delta Air Lines"),
   ("AA", "American Airlines"), ("F9", "Frontier Airlines")]

/-- The per-(group, carrier) estimate inside `price_for_distance`:
`base_cpm * dist_mult.get(group, 1.0) * carrier_mult.get(carrier, 1.0)`. -/
def entry_mult (m : AirModel) (g : Nat) (c : String) : ℚ :=
  m.base_cpm * (dgetD m.dist_mult (g : Int) 1) * (dgetD m.carrier_mult c 1)

/-- Band label `f"{low}-{high}"`. -/
def band_label (g : Nat) : String :=
  toString (band_low g) ++ "-" ++ toString (band_high g)

/-- Embeds `AirModel.price_for_distance`: for each group up to `num_groups` and each
top-8 carrier, the per-mile estimate under the band label. -/
def price_for_distance (m : AirModel) (max_distance : Nat) :
    List (String × List (String × ℚ)) :=
  (List.range (num_groups max_distance)).map (fun i =>
    (band_label (i + 1), m.top_8_carriers.map (fun c =>
      (dgetD carrier_names c c, entry_mult m (i + 1) c))))

/-! ## Ground cost model (backend/transportation/ground_model.py) -/

/-- AAA fuel cents-per-mile by vehicle subtype (fixed constants in
`GroundModel.__init__`). -/
def fuel_cpm : List (String × ℚ) :=
  [("Small Sedan", 1112/100), ("Medium Sedan", 1254/100),
   ("Subcompact SUV", 1337/100), ("Compact SUV (FWD)", 1270/100),
   ("Medium SUV (4WD)", 1646/100), ("Midsize Pickup", 1881/100),
   ("1/2 Ton Pickup", 2216/100)]

/-- AAA maintenance cents-per-mile by vehicle subtype. -/
def maint_cpm : List (String × ℚ) :=
  [("Small Sedan", 955/100), ("Medium Sedan", 1089/100),
   ("Subcompact SUV", 1006/100), ("Compact SUV (FWD)", 1087/100),
   ("Medium SUV (4WD)", 1110/100), ("Midsize Pickup", 1088/100),
   ("1/2 Ton Pickup", 988/100)]

/-- Embeds `avg_dollars_per_mile`: mean cents-per-mile over the given subtype keys,
in dollars per mile.  The source indexes `cpm_dict[k]`; all keys are present,
so the `0` default is unreachable. -/
def avg_dollars_per_mile (keys : List String) (cpm_dict : List (String × ℚ)) : ℚ :=
  (keys.map (fun k => dgetD cpm_dict k 0)).sum / (keys.length : ℚ) / 100

/-- Subtypes of the "car" class. -/
def car_keys : List String := ["Small Sedan", "Medium Sedan"]

/-- Subtypes shared by the "minivan" and "suv" classes. -/
def minivan_suv_keys : List String :=
  ["Subcompact SUV", "Compact SUV (FWD)", "Medium SUV (4WD)"]

/-- Subtypes shared by the "truck" and "van" classes. -/
def truck_keys : List String := ["Midsize Pickup", "1/2 Ton Pickup"]

/-- Fuel dollars-per-mile per vehicle class. -/
def fuel_per_mile : List (String × ℚ) :=
  [("car", avg_dollars_per_mile car_keys fuel_cpm),
   ("minivan", avg_dollars_per_mile minivan_suv_keys fuel_cpm),
   ("suv", avg_dollars_per_mile minivan_suv_keys fuel_cpm),
   ("truck", avg_dollars_per_mile truck_keys fuel_cpm),
   ("van", avg_dollars_per_mile truck_keys fuel_cpm)]

/-- Maintenance dollars-per-mile per vehicle class. -/
def maintenance_per_mile : List (String × ℚ) :=
  [("car", avg_dollars_per_mile car_keys maint_cpm),
   ("minivan", avg_dollars_per_mile minivan_suv_keys maint_cpm),
   ("suv", avg_dollars_per_mile minivan_suv_keys maint_cpm),
   ("truck", avg_dollars_per_mile truck_keys maint_cpm),
   ("van", avg_dollars_per_mile truck_keys maint_cpm)]

/-- Bus cost-per-mile by distance bucket (`BUS_CPM_BY_BUCKET`). -/
def BUS_CPM_BY_BUCKET : List (Nat × ℚ) :=
  [(0, 2794/10000), (1, 2413/10000), (2, 1905/10000)]

/-! ## Request parsing (backend/main_service.py) -/

/-- Value of a nonempty all-digit character list, else `none`. -/
def digitsVal? (l : List Char) : Option Nat :=
  if l.isEmpty then none
  else if l.all (fun c => c.isDigit) then
    some (l.foldl (fun a c => a * 10 + (c.toNat - 48)) 0)
  else none

/-- Python `int(str)` on the request path: an optional sign followed by
decimal digits (the whitespace/underscore forms of the builtin do not occur
in URL path segments and are not modelled). -/
def pyInt? (s : String) : Option Int :=
  match s.data with
  | '-' :: rest => (digitsVal? rest).map (fun n => -(n : Int))
  | '+' :: rest => (digitsVal? rest).map (fun n => (n : Int))
  | l => (digitsVal? l).map (fun n => (n : Int))

/-- The `MoveRequest` dataclass. -/
structure MoveRequest where
  from_city_slug : String
  to_city_slug : String
  start_month : String
  end_month : String
  uhaul_and_moving_flags : String
  transport_flags : String
  apartment_max_cost : Int
deriving DecidableEq

/-- 1st bit of the 2-bit segment: U-Haul wanted. -/
def MoveRequest.use_uhaul_truck (r : MoveRequest) : Bool :=
  r.uhaul_and_moving_flags.data.get? 0 == some '1'

/-- 2nd bit of the 2-bit segment: moving service wanted. -/
def MoveRequest.need_moving_help (r : MoveRequest) : Bool :=
  r.uhaul_and_moving_flags.data.get? 1 == some '1'

/-- 1st bit of the 6-bit segment: travel already arranged. -/
def MoveRequest.no_transport_needed (r : MoveRequest) : Bool :=
  r.transport_flags.data.get? 0 == some '1'

/-- 2nd bit: drive own car. -/
def MoveRequest.use_own_car (r : MoveRequest) : Bool :=
  r.transport_flags.data.get? 1 == some '1'

/-- 3rd bit: moving truck mode. -/
def MoveRequest.use_moving_truck_mode (r : MoveRequest) : Bool :=
  r.transport_flags.data.get? 2 == some '1'

/-- 4th bit: rental car. -/
def MoveRequest.need_rental_car (r : MoveRequest) : Bool :=
  r.transport_flags.data.get? 3 == some '1'

/-- 5th bit: train or bus. -/
def MoveRequest.use_bus (r : MoveRequest) : Bool :=
  r.transport_flags.data.get? 4 == some '1'

/-- 6th bit: plane. -/
def MoveRequest.use_plane (r : MoveRequest) : Bool :=
  r.transport_flags.data.get? 5 == some '1'

/-- Housing is always enabled in this URL scheme (the source returns `True`). -/
def MoveRequest.need_housing (_ : MoveRequest) : Bool := true

/-- Embeds `parse_move_request`: validate the two flag strings and the budget, then
build the `MoveRequest` with the fields passed through unchanged. -/
def parse_move_request (from_city to_city start_month end_month
    uhaul_and_moving_flags transport_flags max_cost_str : String) :
    Except String MoveRequest :=
  if uhaul_and_moving_flags.length != 2 ||
      uhaul_and_moving_flags.data.any (fun c => !(c == '0' || c == '1')) then
    .error ("uhaul_and_moving_flags must be a 2-character 0/1 string, got " ++
      uhaul_and_moving_flags)
  else if transport_flags.length != 6 ||
      transport_flags.data.any (fun c => !(c == '0' || c == '1')) then
    .error ("transport_flags must be a 6-character 0/1 string, got " ++
      transport_flags)
  else
    match pyInt? max_cost_str with
    | none => .error ("Apartment max cost must be an int, got " ++ max_cost_str)
    | some n =>
      .ok { from_city_slug := from_city, to_city_slug := to_city,
            start_month := start_month, end_month := end_month,
            uhaul_and_moving_flags := uhaul_and_moving_flags,
            transport_flags := transport_flags, apartment_max_cost := n }

/-- The malformed-flag test of `parse_move_request`, read back as a
proposition. -/
lemma bad_flag_iff (s : String) (n : Nat) :
    (s.length != n || s.data.any (fun c => !(c == '0' || c == '1'))) = true ↔
      (s.length ≠ n ∨ ∃ c ∈ s.data, c ≠ '0' ∧ c ≠ '1') := by
  simp [List.any_eq_true, not_or]

/-! ## Airport resolution (backend/transportation/getFlightDistance.py and
distanceHelper.py)

Coordinates are exact rationals.  `calc_pyth_distance` returns
`sqrt((x1-x2)^2 + (y1-y2)^2)`; every use compares it against a positive
threshold `t`, and `sqrt d < t ↔ d < t^2`, so the embedding carries the
squared distance and squared thresholds. -/

/-- One row of `datasets/airports.csv` (city, state, latitude, longitude). -/
structure AirportRow where
  city : String
  state : String
  lat : ℚ
  lon : ℚ

/-- One row of `datasets/uscities.csv`. -/
structure CityRow where
  city : String
  state : String
  lat : ℚ
  lon : ℚ

/-- Embeds `distanceHelper.fetch_coords`: coordinates of the first city-table row
with the given name, `none` when the city is absent. -/
def fetch_coords (cities : List CityRow) (city : String) : Option (ℚ × ℚ) :=
  (cities.find? (fun r => r.city == city)).map (fun r => (r.lat, r.lon))

/-- Embeds `distanceHelper.fetch_state`: state of the first matching row. -/
def fetch_state (cities : List CityRow) (city : String) : Option String :=
  (cities.find? (fun r => r.city == city)).map (fun r => r.state)

/-- Squared Euclidean distance over raw coordinates (the square of
`distanceHelper.calc_pyth_distance`). -/
def calc_pyth_distance_sq (c1 c2 : ℚ × ℚ) : ℚ :=
  (c1.1 - c2.1)^2 + (c1.2 - c2.2)^2

/-- Python comparison of a row state against `fetch_state`'s result:
comparing a string with `None` is `False`. -/
def state_eq (s : String) (st : Option String) : Bool :=
  match st with
  | some t => s == t
  | none => false

/-- Second tier of `fetch_airport_city`: first airport row in the same state
within (squared) distance 50². -/
def airport_tier_b (airports : List AirportRow) (st : Option String)
    (cc : ℚ × ℚ) : Option AirportRow :=
  airports.find? (fun a => state_eq a.state st &&
    decide (calc_pyth_distance_sq cc (a.lat, a.lon) < 50^2))

/-- Third tier: first airport row anywhere within (squared) distance 150². -/
def airport_tier_c (airports : List AirportRow) (cc : ℚ × ℚ) :
    Option AirportRow :=
  airports.find? (fun a =>
    decide (calc_pyth_distance_sq cc (a.lat, a.lon) < 150^2))

/-- Embeds `getFlightDistance.fetch_airport_city`.  Note the source returns the
INPUT `city` from every tier, including the two proximity tiers; when the
input city is absent from the city table the source raises a `TypeError`
inside the distance call, modelled as `none`. -/
def fetch_airport_city (airports : List AirportRow) (cities : List CityRow)
    (city : String) : Option String :=
  if airports.any (fun a => a.city == city) then some city
  else
    match fetch_coords cities city with
    | none => none
    | some cc =>
      match airport_tier_b airports (fetch_state cities city) cc with
      | some _ => some city
      | none =>
        match airport_tier_c airports cc with
        | some _ => some city
        | none => none

/-- Airport table for the C6 evaluation: Appleton, WI has the airport. -/
def c6_airport : AirportRow := ⟨"Appleton", "WI", 443/10, -884/10⟩

/-- The one-row airport table. -/
def c6_airports : List AirportRow := [c6_airport]

/-- City table: Neenah, WI, close to Appleton but without an airport. -/
def c6_cities : List CityRow := [⟨"Neenah", "WI", 442/10, -886/10⟩]

/-! ## Apartment selection (backend/property_data/selector.py) -/

/-- Decimal value of a digit list. -/
def parseDigits (l : List Char) : Nat :=
  l.foldl (fun a c => a * 10 + (c.toNat - 48)) 0

/-- Magnitude part of Python `float(str)`: decimal digits with at most one
decimal point and at least one digit (accepts "5", "5.", ".5"; rejects "",
"."). -/
def pyFloatMag? (l : List Char) : Option ℚ :=
  match l.splitOn '.' with
  | [ip] =>
    if !ip.isEmpty && ip.all Char.isDigit then some (parseDigits ip) else none
  | [ip, fp] =>
    if !(ip.isEmpty && fp.isEmpty) && (ip ++ fp).all Char.isDigit then
      some ((parseDigits ip : ℚ) + (parseDigits fp : ℚ) / 10 ^ fp.length)
    else none
  | _ => none

/-- Python `float(str)` as the selector uses it on CSV price cells: optional
surrounding whitespace, optional sign, plain decimal notation (the
exponent/inf/nan forms of the builtin do not occur in price cells and are not
modelled). -/
def pyFloat? (s : String) : Option ℚ :=
  match s.trim.data with
  | '-' :: rest => (pyFloatMag? rest).map (fun q => -q)
  | '+' :: rest => pyFloatMag? rest
  | l => pyFloatMag? l

/-- One CSV listing row with the `OUTPUT_FIELDS` columns; `none` models a
missing cell (a short CSV row, which `DictReader` fills with `None`). -/
structure Row where
  id : Option String
  formattedAddress : Option String
  city : Option String
  state : Option String
  zipCode : Option String
  propertyType : Option String
  bedrooms : Option String
  bathrooms : Option String
  squareFootage : Option String
  yearBuilt : Option String
  status : Option String
  price : Option String
  listingWebsite : Option String
deriving DecidableEq

/-- One normalized output listing.  The price is numeric: the output stage
receives the float stored by the filtering stage, so `float(value)` always
succeeds there. -/
structure Entry where
  id : String
  formattedAddress : String
  city : String
  state : String
  zipCode : String
  propertyType : String
  bedrooms : String
  bathrooms : String
  squareFootage : String
  yearBuilt : String
  status : String
  price : ℚ
  listingWebsite : String
deriving DecidableEq

/-- Embeds the normalize-city-state helper: strip, split once on the first comma when
present, lowercase the city and uppercase the state. -/
def normalize_city_state_input (s : String) : String × String :=
  let t := s.trim
  match t.splitOn "," with
  | c :: r :: rs =>
    (c.trim.toLower, (String.intercalate "," (r :: rs)).trim.toUpper)
  | _ => (t.toLower, "")

/-- Embeds `(row.get("city") or "").strip().lower()`. -/
def row_city (r : Row) : String := ((r.city.getD "").trim).toLower

/-- Embeds `(row.get("state") or "").strip().upper()`. -/
def row_state (r : Row) : String := ((r.state.getD "").trim).toUpper

/-- Embeds `float(row.get("price", 0))` as a fallible parse: the price column is
always present in the CSV dict, so the lookup yields the cell; a `None` cell
raises `TypeError` and an unparsable string raises `ValueError`, both caught
by the source and turned into skipping the row — here `none`. -/
def parse_price (r : Row) : Option ℚ :=
  match r.price with
  | none => none
  | some s => pyFloat? s

/-- The per-row filter of `find_top_apartments`: city must match, state must
match when a state filter is given, the price must parse and be ≤ the
budget; yields the parsed price. -/
def row_keep (cf sf : String) (mp : ℚ) (r : Row) : Option ℚ :=
  if row_city r != cf then none
  else if sf != "" && row_state r != sf then none
  else
    match parse_price r with
    | none => none
    | some p => if p ≤ mp then some p else none

/-- Insert a (row, price) pair into an ascending-by-price list, before the
first pair with a ≥ price (stable, like Python `list.sort`). -/
def insertRP (x : Row × ℚ) : List (Row × ℚ) → List (Row × ℚ)
  | [] => [x]
  | y :: ys => if x.2 ≤ y.2 then x :: y :: ys else y :: insertRP x ys

/-- Stable ascending sort by price (`filtered.sort(key=lambda r: r["price"])`). -/
def sortRP (l : List (Row × ℚ)) : List (Row × ℚ) := l.foldr insertRP []

/-- The output normalization of one field: blank or missing becomes "NA". -/
def na_of (v : Option String) : String :=
  match v with
  | none => "NA"
  | some s => if s.trim = "" then "NA" else s

/-- Build the normalized output entry from a kept row and its parsed price. -/
def normalize_entry (r : Row) (p : ℚ) : Entry :=
  { id := na_of r.id, formattedAddress := na_of r.formattedAddress,
    city := na_of r.city, state := na_of r.state, zipCode := na_of r.zipCode,
    propertyType := na_of r.propertyType, bedrooms := na_of r.bedrooms,
    bathrooms := na_of r.bathrooms, squareFootage := na_of r.squareFootage,
    yearBuilt := na_of r.yearBuilt, status := na_of r.status, price := p,
    listingWebsite := na_of r.listingWebsite }

/-- Embeds `find_top_apartments`: filter by city/state/price, sort ascending by
price, truncate, normalize. -/
def find_top_apartments (destination_city : String) (max_price : ℚ)
    (rows : List Row) (max_results : Nat) : List Entry :=
  ((sortRP (rows.filterMap (fun r =>
    (row_keep (normalize_city_state_input destination_city).1
      (normalize_city_state_input destination_city).2 max_price r).map
      (fun p => (r, p))))).take max_results).map
    (fun rp => normalize_entry rp.1 rp.2)

/-- The spec's description of field normalization: a missing or blank source
cell comes out as the sentinel "NA", anything else is passed through. -/
def na_normalized (src : Option String) (out : String) : Prop :=
  match src with
  | none => out = "NA"
  | some v => if v.trim = "" then out = "NA" else out = v

/-! ## City slugs and housing response (backend/main_service.py) -/

/-- The canonical city list of `build_city_slug_map`. -/
def city_names : List String := ["Madison, WI", "Seattle, WA", "Neenah, WI"]

/-- Slug of one canonical name: lowercase city without blanks, then lowercase
state ("Madison, WI" ↦ "madisonwi").  The fixed list always has exactly one
comma (the source would raise on a malformed entry). -/
def slug_of_city_name (full : String) : String :=
  match full.splitOn "," with
  | c :: st :: _ => ((c.trim.toLower).replace " " "") ++ st.trim.toLower
  | _ => ""

/-- Embeds `CITY_SLUG_MAP`. -/
def CITY_SLUG_MAP : List (String × String) :=
  city_names.map (fun full => (slug_of_city_name full, full))

/-- Embeds `slug_to_city_state`: canonical "City, ST" for a known slug, the raw slug
otherwise. -/
def slug_to_city_state (slug : String) : String :=
  dgetD CITY_SLUG_MAP slug.toLower slug

/-- The housing section built by `get_housing_options`. -/
structure Housing where
  enabled : Bool
  destination_city : String
  max_price : Int
  results_count : Nat
  apartments : List Entry
deriving DecidableEq

/-- Embeds `get_housing_options`: destination from the slug, up to 10 apartments
under the budget, `results_count` the number returned. -/
def get_housing_options (rows : List Row) (req : MoveRequest) : Housing :=
  let dest := slug_to_city_state req.to_city_slug
  let apartments := find_top_apartments dest (req.apartment_max_cost : ℚ) rows 10
  { enabled := true, destination_city := dest,
    max_price := req.apartment_max_cost,
    results_count := apartments.length, apartments := apartments }

/-! ## Move plan orchestration (backend/main_service.py)

The orchestrator's external effects become explicit inputs: the listings CSV
is a row list, the geopy great-circle distance call is an `Except` outcome,
and the two `datetime.now()`-derived date strings are passed in. -/

/-- External inputs of one plan build. -/
structure Env where
  listings : List Row
  flight_distance : Except String ℚ
  today : String
  tomorrow : String

/-- Banker's rounding of a rational to an integer (Python `round`). -/
def round_half_even (q : ℚ) : ℤ :=
  if q - ⌊q⌋ < 1/2 then ⌊q⌋
  else if (1:ℚ)/2 < q - ⌊q⌋ then ⌊q⌋ + 1
  else if ⌊q⌋ % 2 = 0 then ⌊q⌋ else ⌊q⌋ + 1

/-- Python `round(x, 1)`. -/
def py_round1 (q : ℚ) : ℚ := (round_half_even (q * 10) : ℚ) / 10

/-- One U-Haul truck option. -/
structure UhaulOption where
  truck_type : String
  estimated_base_rate : ℚ
  estimated_mileage_fees : ℚ
  estimated_total : ℚ
deriving DecidableEq

/-- The `estimate_uhaul_truck_cost` result dict. -/
structure UhaulEstimate where
  enabled : Bool
  note : String
  pickup_city : String
  dropoff_city : String
  options : List UhaulOption
deriving DecidableEq

/-- Embeds `estimate_uhaul_truck_cost`: static demo options, long-distance when the
two resolved cities differ. -/
def estimate_uhaul_truck_cost (req : MoveRequest) : UhaulEstimate :=
  { enabled := true
    note := "Demo U-Haul cost estimates (static). Not live prices; for hackathon/demo purposes only."
    pickup_city := slug_to_city_state req.from_city_slug
    dropoff_city := slug_to_city_state req.to_city_slug
    options :=
      if slug_to_city_state req.from_city_slug !=
          slug_to_city_state req.to_city_slug then
        [⟨"10-foot truck", 450, 220, 670⟩, ⟨"15-foot truck", 520, 240, 760⟩]
      else
        [⟨"10-foot truck", 45, 40, 85⟩, ⟨"15-foot truck", 55, 45, 100⟩] }

/-- One moving-help provider. -/
structure Provider where
  name : String
  hours : Nat
  crew_size : Nat
  estimated_total : ℚ
deriving DecidableEq

/-- The `estimate_moving_help_cost` result dict. -/
structure MovingHelpEstimate where
  enabled : Bool
  note : String
  loading_address : String
  unloading_address : String
  loading_date : String
  unloading_date : String
  providers : List Provider
deriving DecidableEq

/-- Embeds `estimate_moving_help_cost`: static demo providers, dates from the
clock. -/
def estimate_moving_help_cost (env : Env) (req : MoveRequest) :
    MovingHelpEstimate :=
  { enabled := true
    note := "Demo moving-help estimates (static). Not live pricing."
    loading_address := slug_to_city_state req.from_city_slug
    unloading_address := slug_to_city_state req.to_city_slug
    loading_date := env.today
    unloading_date := env.tomorrow
    providers := [⟨"QuickMove Helpers", 2, 2, 220⟩,
      ⟨"College Movers Co.", 3, 2, 310⟩] }

/-- The `estimate_plane_cost` result dict. -/
structure PlaneEstimate where
  enabled : Bool
  origin_city : String
  destination_city : String
  distance_miles : Option ℚ
  description : String
  distance_km : Option ℚ
  error : Option String
deriving DecidableEq

/-- Embeds `estimate_plane_cost`: the distance comes from `calc_flight_distance`
(great-circle via geopy, an external call whose outcome is in the
environment); on failure the error string is attached and the distance
fields stay absent. -/
def estimate_plane_cost (env : Env) (req : MoveRequest) : PlaneEstimate :=
  { enabled := true
    origin_city := slug_to_city_state req.from_city_slug
    destination_city := slug_to_city_state req.to_city_slug
    distance_miles :=
      match env.flight_distance with
      | .ok d => some d
      | .error _ => none
    description := "Great-circle distance between nearest airports to origin and destination."
    distance_km :=
      match env.flight_distance with
      | .ok d => some (py_round1 (d * (160934/100000)))
      | .error _ => none
    error :=
      match env.flight_distance with
      | .ok _ => none
      | .error e => some e }

/-- A placeholder estimate dict. -/
structure SimpleEstimate where
  enabled : Bool
  description : String
  example_price : ℚ
deriving DecidableEq

/-- Embeds `estimate_bus_cost`. -/
def estimate_bus_cost (_ : MoveRequest) : SimpleEstimate :=
  ⟨true, "Placeholder bus estimate", 120⟩

/-- Embeds `estimate_rental_car_cost`. -/
def estimate_rental_car_cost (_ : MoveRequest) : SimpleEstimate :=
  ⟨true, "Placeholder rental car estimate", 600⟩

/-- Embeds `estimate_own_car_cost`. -/
def estimate_own_car_cost (_ : MoveRequest) : SimpleEstimate :=
  ⟨true, "Placeholder own-car gas estimate", 300⟩

/-- What the job-classification collaborator hands back (plus the error slot
the orchestrator's fallback fills in). -/
structure JobInfo where
  job_title : Option String
  location : Option String
  job_start_month : Option Int
  job_start_year : Option Int
  job_end_month : Option Int
  job_end_year : Option Int
  job_analysis_error : Option String
deriving DecidableEq

/-- Embeds `compute_month_duration`: month difference, `None` when any input is
missing. -/
def compute_month_duration :
    Option Int → Option Int → Option Int → Option Int → Option Int
  | some sm, some sy, some em, some ey => some ((ey - sy) * 12 + (em - sm))
  | _, _, _, _ => none

/-- Python truthiness of an optional string (`None` and `""` are falsy). -/
def str_or_na (v : Option String) : String :=
  match v with
  | some t => if t = "" then "NA" else t
  | none => "NA"

/-- The `f"{month}/{year}"` formatting guarded by Python truthiness
(`None` and `0` are falsy). -/
def month_year_str : Option Int → Option Int → String
  | some m, some y =>
    if m != 0 && y != 0 then toString m ++ "/" ++ toString y else "NA"
  | _, _ => "NA"

/-- The compact summary `build_job_summary` produces: exactly these five
fields, missing values replaced by "NA". -/
structure JobSummary where
  job_title : String
  move_to_destination : String
  start_month : String
  end_month : String
  duration_months : String
deriving DecidableEq

/-- Embeds `build_job_summary`.  Note it reads only the six data fields of the LLM
result; the `job_analysis_error` slot is never consulted. -/
def build_job_summary (j : JobInfo) : JobSummary :=
  { job_title := str_or_na j.job_title
    move_to_destination := str_or_na j.location
    start_month := month_year_str j.job_start_month j.job_start_year
    end_month := month_year_str j.job_end_month j.job_end_year
    duration_months :=
      match compute_month_duration j.job_start_month j.job_start_year
        j.job_end_month j.job_end_year with
      | none => "NA"
      | some d => toString d }

/-- The transportation section: the skip flag, its reason, and one optional
slot per mode (an absent dict key is `none`). -/
structure Transportation where
  skipped : Bool
  reason : Option String
  uhaul_truck : Option UhaulEstimate
  own_car : Option SimpleEstimate
  rental_car : Option SimpleEstimate
  bus : Option SimpleEstimate
  plane : Option PlaneEstimate
  moving_help : Option MovingHelpEstimate
deriving DecidableEq

/-- The request echo section. -/
structure RequestEcho where
  from_city : String
  to_city : String
  start_month : String
  end_month : String
  uhaul_and_moving : String
  transport : String
  apartment_max_cost : Int
deriving DecidableEq

/-- The whole plan response. -/
structure MovePlan where
  job_summary : Option JobSummary
  request : RequestEcho
  transportation : Transportation
  housing : Housing

/-- Embeds `build_move_plan`: optional job summary first, then the request echo,
then transportation (all mode slots empty with a reason when transport is
pre-arranged, else one slot per enabled flag), then housing (`need_housing`
is constantly true, so the source's disabled-housing branch is dead code). -/
def build_move_plan (env : Env) (req : MoveRequest)
    (job_info : Option JobInfo) : MovePlan :=
  { job_summary := job_info.map build_job_summary
    request :=
      { from_city := req.from_city_slug, to_city := req.to_city_slug,
        start_month := req.start_month, end_month := req.end_month,
        uhaul_and_moving := req.uhaul_and_moving_flags,
        transport := req.transport_flags,
        apartment_max_cost := req.apartment_max_cost }
    transportation :=
      if req.no_transport_needed then
        { skipped := true
          reason := some "User indicated they already have travel arrangements."
          uhaul_truck := none, own_car := none, rental_car := none
          bus := none, plane := none, moving_help := none }
      else
        { skipped := false
          reason := none
          uhaul_truck :=
            if req.use_uhaul_truck then some (estimate_uhaul_truck_cost req)
            else none
          own_car :=
            if req.use_own_car then some (estimate_own_car_cost req) else none
          rental_car :=
            if req.need_rental_car then some (estimate_rental_car_cost req)
            else none
          bus := if req.use_bus then some (estimate_bus_cost req) else none
          plane :=
            if req.use_plane then some (estimate_plane_cost env req) else none
          moving_help :=
            if req.need_moving_help then some (estimate_moving_help_cost env req)
            else none }
    housing := get_housing_options env.listings req }

/-- The fallback job info `get_move_plan` builds when the collaborator
throws: every data field `None`, the error string in `job_analysis_error`. -/
def job_error_fallback (e : String) : JobInfo :=
  { job_title := none, location := none, job_start_month := none,
    job_start_year := none, job_end_month := none, job_end_year := none,
    job_analysis_error := some e }

/-- The job-handling tail of the `get_move_plan` route, after request
parsing succeeded: an optional job-analysis outcome (the collaborator call
is external) is folded into the plan, a thrown error replaced by the
fallback info rather than aborting. -/
def get_move_plan (env : Env) (req : MoveRequest)
    (job_analysis : Option (Except String JobInfo)) : MovePlan :=
  build_move_plan env req (job_analysis.map (fun r =>
    match r with
    | .ok j => j
    | .error e => job_error_fallback e))

/-! ## Claim theorems: fare model and request parsing -/

/-- C1 (amended): every mileage lies in the band of group floor(miles/500)+1
and of no other group, so the distance bucket is floor(miles/500)+1 — not
floor((miles-1)/500)+1 — and distance_bucket(499)=1, distance_bucket(500)=2,
distance_bucket(999)=2, distance_bucket(1000)=3, bucket 1 covering 0-499 and
bucket 2 covering 500-999. -/
theorem c1_bucket_amended : ∀ m : Nat,
    in_band (distance_bucket m) m
    ∧ (∀ g : Nat, 1 ≤ g → in_band g m → g = distance_bucket m)
    ∧ distance_bucket 499 = 1 ∧ distance_bucket 500 = 2
    ∧ distance_bucket 999 = 2 ∧ distance_bucket 1000 = 3 := by
  intro m
  refine ⟨?_, fun g hg hb => ?_, rfl, rfl, rfl, rfl⟩
  · simp only [in_band, band_low, band_high, distance_bucket]
    omega
  · simp only [in_band, band_low, band_high] at hb
    simp only [distance_bucket]
    omega

/-- C1 counterexample: 500 miles lies in the band of group 2 ("500-999") and
not in that of group 1, so its distance bucket is 2, while the claimed formula
floor((500-1)/500)+1 evaluates to 1. -/
theorem c1_formula_counterexample :
    in_band 2 500 ∧ ¬ in_band 1 500 ∧ distance_bucket 500 = 2 ∧
      (500 - 1) / 500 + 1 = 1 := by
  decide

/-- C4: in the fare estimate entry base_cpm * dist_mult * carrier_mult, an
unknown distance bucket and/or an unknown carrier code contribute the neutral
multiplier 1.0, leaving base_cpm times the remaining known multipliers; the
estimate is total (never an error). -/
theorem c4_unknown_neutral (m : AirModel) (g : Nat) (c : String) :
    (dget m.dist_mult (g : Int) = none → dget m.carrier_mult c = none →
      entry_mult m g c = m.base_cpm)
    ∧ (dget m.dist_mult (g : Int) = none →
      entry_mult m g c = m.base_cpm * (dget m.carrier_mult c).getD 1)
    ∧ (dget m.carrier_mult c = none →
      entry_mult m g c = m.base_cpm * (dget m.dist_mult (g : Int)).getD 1) := by
  refine ⟨fun h1 h2 => ?_, fun h1 => ?_, fun h2 => ?_⟩ <;>
    simp [entry_mult, dgetD, *]

/-- C5 counterexample: construction on an empty record set (whose filtered
set is empty) does not fail — `AirModel.__init__` completes and leaves a
full state object whose base cost-per-mile is the undefined empty-series
median (pandas NaN, `none` here) and whose multiplier tables and top-8 list
are all empty. -/
theorem c5_empty_construction_completes :
    air_model_init [] =
      { base_cpm := none, carrier_mult_full := [], top_8_carriers := [],
        carrier_mult := [], dist_mult := [], roundtrip_mult := [] } := rfl

/-- C5 (amended): on an empty filtered record set construction completes
with the NaN (undefined) base cost-per-mile and empty derived tables rather
than failing; with exactly one surviving record the base cost-per-mile is
that record's yield exactly. -/
theorem c5_base_cpm (records : List TicketRecord) :
    (records.filter validRecord = [] →
      air_model_init records =
        { base_cpm := none, carrier_mult_full := [], top_8_carriers := [],
          carrier_mult := [], dist_mult := [], roundtrip_mult := [] })
    ∧ (∀ r y, records.filter validRecord = [r] → r.itin_yield = some y →
      (air_model_init records).base_cpm = some y) := by
  constructor
  · intro h
    have hdf : air_df records = [] := h
    unfold air_model_init
    rw [hdf]
    rfl
  · intro r y h hy
    have hdf : air_df records = [r] := h
    have hys : air_yields (air_df records) = [y] := by
      rw [hdf]; simp [air_yields, hy]
    have hmed : median (air_yields (air_df records)) = some y := by
      rw [hys]; simp [median, sortQ, insertQ]
    exact hmed

/-- C2: parse_move_request yields a validation error exactly when the 2-bit
flag string is not 2 characters of 0/1, the 6-bit flag string is not 6
characters of 0/1, or the budget string is not an integer; otherwise it
returns the MoveRequest with every field unchanged. -/
theorem c2_parse_validation (fc tc sm em uh tf mc : String) :
    ((∃ msg, parse_move_request fc tc sm em uh tf mc = .error msg) ↔
      (uh.length ≠ 2 ∨ (∃ c ∈ uh.data, c ≠ '0' ∧ c ≠ '1') ∨
       tf.length ≠ 6 ∨ (∃ c ∈ tf.data, c ≠ '0' ∧ c ≠ '1') ∨ pyInt? mc = none))
    ∧ (∀ r, parse_move_request fc tc sm em uh tf mc = .ok r →
        r.from_city_slug = fc ∧ r.to_city_slug = tc ∧ r.start_month = sm ∧
        r.end_month = em ∧ r.uhaul_and_moving_flags = uh ∧
        r.transport_flags = tf ∧ pyInt? mc = some r.apartment_max_cost) := by
  unfold parse_move_request
  split_ifs with h1 h2
  · refine ⟨⟨fun _ => ?_, fun _ => ⟨_, rfl⟩⟩, fun r hr => hr.elim⟩
    rcases (bad_flag_iff uh 2).mp h1 with h | h
    · exact Or.inl h
    · exact Or.inr (Or.inl h)
  · refine ⟨⟨fun _ => ?_, fun _ => ⟨_, rfl⟩⟩, fun r hr => hr.elim⟩
    rcases (bad_flag_iff tf 6).mp h2 with h | h
    · exact Or.inr (Or.inr (Or.inl h))
    · exact Or.inr (Or.inr (Or.inr (Or.inl h)))
  · have h1' : ¬(uh.length ≠ 2 ∨ ∃ c ∈ uh.data, c ≠ '0' ∧ c ≠ '1') :=
      fun hc => h1 ((bad_flag_iff uh 2).mpr hc)
    have h2' : ¬(tf.length ≠ 6 ∨ ∃ c ∈ tf.data, c ≠ '0' ∧ c ≠ '1') :=
      fun hc => h2 ((bad_flag_iff tf 6).mpr hc)
    cases hmc : pyInt? mc with
    | none =>
      refine ⟨⟨fun _ => Or.inr (Or.inr (Or.inr (Or.inr rfl))),
        fun _ => ⟨_, rfl⟩⟩, fun r hr => by cases hr⟩
    | some n =>
      constructor
      · constructor
        · rintro ⟨msg, hmsg⟩
          cases hmsg
        · rintro (h | h | h | h | h)
          · exact absurd (Or.inl h) h1'
          · exact absurd (Or.inr h) h1'
          · exact absurd (Or.inl h) h2'
          · exact absurd (Or.inr h) h2'
          · exact Option.noConfusion h
      · intro r hr
        injection hr with hr'
        subst hr'
        exact ⟨rfl, rfl, rfl, rfl, rfl, rfl, rfl⟩

/-- C9: the derived fuel and maintenance dollars-per-mile agree between the
minivan and suv classes and between the truck and van classes, and each class
value is the simple mean of its AAA subtype cents-per-mile constants divided
by 100. -/
theorem c9_class_value_sharing :
    dget fuel_per_mile "minivan" = dget fuel_per_mile "suv"
    ∧ dget fuel_per_mile "truck" = dget fuel_per_mile "van"
    ∧ dget maintenance_per_mile "minivan" = dget maintenance_per_mile "suv"
    ∧ dget maintenance_per_mile "truck" = dget maintenance_per_mile "van"
    ∧ dget fuel_per_mile "car" = some ((1112/100 + 1254/100) / 2 / 100)
    ∧ dget fuel_per_mile "minivan" =
        some ((1337/100 + 1270/100 + 1646/100) / 3 / 100)
    ∧ dget fuel_per_mile "truck" = some ((1881/100 + 2216/100) / 2 / 100)
    ∧ dget maintenance_per_mile "car" = some ((955/100 + 1089/100) / 2 / 100)
    ∧ dget maintenance_per_mile "minivan" =
        some ((1006/100 + 1087/100 + 1110/100) / 3 / 100)
    ∧ dget maintenance_per_mile "truck" =
        some ((1088/100 + 988/100) / 2 / 100) := by
  have hfc : dget fuel_per_mile "car" =
      some (avg_dollars_per_mile car_keys fuel_cpm) := rfl
  have hfm : dget fuel_per_mile "minivan" =
      some (avg_dollars_per_mile minivan_suv_keys fuel_cpm) := rfl
  have hft : dget fuel_per_mile "truck" =
      some (avg_dollars_per_mile truck_keys fuel_cpm) := rfl
  have hmc : dget maintenance_per_mile "car" =
      some (avg_dollars_per_mile car_keys maint_cpm) := rfl
  have hmm : dget maintenance_per_mile "minivan" =
      some (avg_dollars_per_mile minivan_suv_keys maint_cpm) := rfl
  have hmt : dget maintenance_per_mile "truck" =
      some (avg_dollars_per_mile truck_keys maint_cpm) := rfl
  have havg1 : avg_dollars_per_mile car_keys fuel_cpm =
      (1112/100 + 1254/100) / 2 / 100 := by
    show (1112/100 + (1254/100 + 0) : ℚ) / 2 / 100 = _
    norm_num
  have havg2 : avg_dollars_per_mile minivan_suv_keys fuel_cpm =
      (1337/100 + 1270/100 + 1646/100) / 3 / 100 := by
    show (1337/100 + (1270/100 + (1646/100 + 0)) : ℚ) / 3 / 100 = _
    norm_num
  have havg3 : avg_dollars_per_mile truck_keys fuel_cpm =
      (1881/100 + 2216/100) / 2 / 100 := by
    show (1881/100 + (2216/100 + 0) : ℚ) / 2 / 100 = _
    norm_num
  have havg4 : avg_dollars_per_mile car_keys maint_cpm =
      (955/100 + 1089/100) / 2 / 100 := by
    show (955/100 + (1089/100 + 0) : ℚ) / 2 / 100 = _
    norm_num
  have havg5 : avg_dollars_per_mile minivan_suv_keys maint_cpm =
      (1006/100 + 1087/100 + 1110/100) / 3 / 100 := by
    show (1006/100 + (1087/100 + (1110/100 + 0)) : ℚ) / 3 / 100 = _
    norm_num
  have havg6 : avg_dollars_per_mile truck_keys maint_cpm =
      (1088/100 + 988/100) / 2 / 100 := by
    show (1088/100 + (988/100 + 0) : ℚ) / 2 / 100 = _
    norm_num
  exact ⟨rfl, rfl, rfl, rfl, hfc.trans (congrArg some havg1),
    hfm.trans (congrArg some havg2), hft.trans (congrArg some havg3),
    hmc.trans (congrArg some havg4), hmm.trans (congrArg some havg5),
    hmt.trans (congrArg some havg6)⟩

/-- C6: evaluated on a table where Neenah, WI has no airport but Appleton, WI
(same state, Euclidean distance below 50) does, the resolver returns the
input city "Neenah" — not the matched airport-table city "Appleton" that its
same-state tier found — contradicting the claimed tier results and the
function's own stated purpose. -/
theorem c6_resolver_returns_input_city :
    fetch_airport_city c6_airports c6_cities "Neenah" = some "Neenah"
    ∧ (airport_tier_b c6_airports (fetch_state c6_cities "Neenah")
        (442/10, -886/10)).map (fun a => a.city) = some "Appleton"
    ∧ ("Neenah" : String) ≠ "Appleton" := by
  have hlt : calc_pyth_distance_sq ((442:ℚ)/10, (-886:ℚ)/10)
      (c6_airport.lat, c6_airport.lon) < 50^2 := by
    norm_num [calc_pyth_distance_sq, c6_airport]
  have hp : (state_eq c6_airport.state (fetch_state c6_cities "Neenah") &&
      decide (calc_pyth_distance_sq ((442:ℚ)/10, (-886:ℚ)/10)
        (c6_airport.lat, c6_airport.lon) < 50^2)) = true := by
    rw [decide_eq_true hlt]
    rfl
  have htb : airport_tier_b c6_airports (fetch_state c6_cities "Neenah")
      (442/10, -886/10) = some c6_airport := by
    unfold airport_tier_b c6_airports
    exact List.find?_cons_of_pos _ hp
  refine ⟨?_, ?_, by decide⟩
  · unfold fetch_airport_city
    rw [if_neg (by decide)]
    show (match airport_tier_b c6_airports (fetch_state c6_cities "Neenah")
        ((442:ℚ)/10, (-886:ℚ)/10) with
      | some _ => some "Neenah"
      | none =>
        match airport_tier_c c6_airports ((442:ℚ)/10, (-886:ℚ)/10) with
        | some _ => some "Neenah"
        | none => none) = some "Neenah"
    rw [htb]
  · rw [htb]
    rfl

/-! ## Lemmas about the apartment selector -/

lemma mem_insertRP (x y : Row × ℚ) (l : List (Row × ℚ)) :
    y ∈ insertRP x l ↔ y = x ∨ y ∈ l := by
  induction l with
  | nil => simp [insertRP]
  | cons z zs ih =>
    simp only [insertRP]
    split
    · simp [List.mem_cons]
    · simp only [List.mem_cons, ih]
      tauto

lemma mem_sortRP (y : Row × ℚ) (l : List (Row × ℚ)) :
    y ∈ sortRP l ↔ y ∈ l := by
  induction l with
  | nil => simp [sortRP]
  | cons z zs ih =>
    show y ∈ insertRP z (sortRP zs) ↔ _
    rw [mem_insertRP]
    simp [List.mem_cons, ih]

lemma pairwise_insertRP (x : Row × ℚ) (l : List (Row × ℚ))
    (h : l.Pairwise (fun a b => a.2 ≤ b.2)) :
    (insertRP x l).Pairwise (fun a b => a.2 ≤ b.2) := by
  induction l with
  | nil => simp [insertRP]
  | cons z zs ih =>
    rcases List.pairwise_cons.mp h with ⟨hz, hzs⟩
    simp only [insertRP]
    split
    · refine List.pairwise_cons.mpr ⟨?_, h⟩
      intro b hb
      rcases List.mem_cons.mp hb with rfl | h1
      · assumption
      · exact le_trans (by assumption) (hz b h1)
    · refine List.pairwise_cons.mpr ⟨?_, ih hzs⟩
      intro b hb
      rcases (mem_insertRP x b zs).mp hb with rfl | h1
      · exact le_of_not_le (by assumption)
      · exact hz b h1

lemma pairwise_sortRP (l : List (Row × ℚ)) :
    (sortRP l).Pairwise (fun a b => a.2 ≤ b.2) := by
  induction l with
  | nil => simp [sortRP]
  | cons z zs ih => exact pairwise_insertRP z (sortRP zs) ih

lemma row_keep_eq_some (cf sf : String) (mp : ℚ) (r : Row) (p : ℚ) :
    row_keep cf sf mp r = some p ↔
      (row_city r = cf ∧ (sf = "" ∨ row_state r = sf) ∧
        parse_price r = some p ∧ p ≤ mp) := by
  unfold row_keep
  split_ifs with h1 h2
  · simp only [bne_iff_ne, ne_eq] at h1
    simp [h1]
  · simp only [bne_iff_ne, ne_eq, Bool.not_eq_true, bne_eq_false_iff_eq] at h1
    simp only [Bool.and_eq_true, bne_iff_ne, ne_eq] at h2
    simp [h1, h2.1, h2.2]
  · simp only [bne_iff_ne, ne_eq, Bool.not_eq_true, bne_eq_false_iff_eq] at h1
    simp only [Bool.and_eq_true, bne_iff_ne, ne_eq, not_and, not_not] at h2
    cases hp : parse_price r with
    | none => simp [h1, hp]
    | some q =>
      have hsf : sf = "" ∨ row_state r = sf := by
        by_cases hs : sf = ""
        · exact Or.inl hs
        · exact Or.inr (h2 hs)
      rw [show (match some q with
          | none => none
          | some p => if p ≤ mp then some p else none : Option ℚ) =
        if q ≤ mp then some q else none from rfl]
      split_ifs with hq
      · constructor
        · intro h
          injection h with h
          subst h
          exact ⟨not_not.mp h1, hsf, rfl, hq⟩
        · exact fun hR => hR.2.2.1
      · constructor
        · intro h; cases h
        · rintro ⟨-, -, h, hle⟩
          injection h with h
          subst h
          exact absurd hle hq

lemma row_keep_of_bad_price (cf sf : String) (mp : ℚ) (r : Row)
    (hp : parse_price r = none) : row_keep cf sf mp r = none := by
  unfold row_keep
  split_ifs <;> simp [hp]

lemma na_of_spec (v : Option String) : na_normalized v (na_of v) := by
  cases v with
  | none => simp [na_normalized, na_of]
  | some s =>
    simp only [na_normalized, na_of]
    split_ifs <;> rfl

lemma mem_find_top (dest : String) (mp : ℚ) (rows : List Row) (e : Entry)
    (he : e ∈ find_top_apartments dest mp rows 10) :
    ∃ r ∈ rows, ∃ p : ℚ,
      row_keep (normalize_city_state_input dest).1
        (normalize_city_state_input dest).2 mp r = some p ∧
      e = normalize_entry r p := by
  unfold find_top_apartments at he
  rcases List.mem_map.mp he with ⟨rp, hrp, rfl⟩
  have h1 : rp ∈ sortRP (rows.filterMap (fun r =>
      (row_keep (normalize_city_state_input dest).1
        (normalize_city_state_input dest).2 mp r).map (fun p => (r, p)))) :=
    List.mem_of_mem_take hrp
  rw [mem_sortRP] at h1
  rcases List.mem_filterMap.mp h1 with ⟨r, hr, hkeep⟩
  cases hk : row_keep (normalize_city_state_input dest).1
      (normalize_city_state_input dest).2 mp r with
  | none => rw [hk] at hkeep; cases hkeep
  | some p =>
    rw [hk] at hkeep
    injection hkeep with hkeep'
    have hkeep2 : (r, p) = rp := hkeep'
    subst hkeep2
    exact ⟨r, hr, p, hk, rfl⟩

lemma find_top_length_le (dest : String) (mp : ℚ) (rows : List Row) (n : Nat) :
    (find_top_apartments dest mp rows n).length ≤ n := by
  unfold find_top_apartments
  rw [List.length_map]
  exact List.length_take_le _ _

lemma find_top_pairwise (dest : String) (mp : ℚ) (rows : List Row) (n : Nat) :
    (find_top_apartments dest mp rows n).Pairwise
      (fun a b => a.price ≤ b.price) := by
  unfold find_top_apartments
  rw [List.pairwise_map]
  exact (pairwise_sortRP _).sublist (List.take_sublist _ _)

/-- C7: the housing response counts exactly the listings returned; at most 10
listings come back, sorted ascending by price; every one stems from an input
row in the requested city (and state when the destination names one), has a
parsed numeric price not exceeding the budget, and every non-price field is
the source cell with missing or blank cells replaced by the sentinel "NA". -/
theorem c7_housing_lookup (rows : List Row) (req : MoveRequest) :
    (get_housing_options rows req).results_count =
      (get_housing_options rows req).apartments.length
    ∧ (get_housing_options rows req).apartments.length ≤ 10
    ∧ (get_housing_options rows req).apartments.Pairwise
        (fun a b => a.price ≤ b.price)
    ∧ ∀ e ∈ (get_housing_options rows req).apartments,
        ∃ r ∈ rows, ∃ p : ℚ,
          row_city r = (normalize_city_state_input
            (slug_to_city_state req.to_city_slug)).1
          ∧ ((normalize_city_state_input
              (slug_to_city_state req.to_city_slug)).2 = "" ∨
            row_state r = (normalize_city_state_input
              (slug_to_city_state req.to_city_slug)).2)
          ∧ parse_price r = some p ∧ p ≤ (req.apartment_max_cost : ℚ)
          ∧ e.price = p
          ∧ na_normalized r.id e.id
          ∧ na_normalized r.formattedAddress e.formattedAddress
          ∧ na_normalized r.city e.city
          ∧ na_normalized r.state e.state
          ∧ na_normalized r.zipCode e.zipCode
          ∧ na_normalized r.propertyType e.propertyType
          ∧ na_normalized r.bedrooms e.bedrooms
          ∧ na_normalized r.bathrooms e.bathrooms
          ∧ na_normalized r.squareFootage e.squareFootage
          ∧ na_normalized r.yearBuilt e.yearBuilt
          ∧ na_normalized r.status e.status
          ∧ na_normalized r.listingWebsite e.listingWebsite := by
  refine ⟨rfl, find_top_length_le _ _ rows 10, find_top_pairwise _ _ rows 10, ?_⟩
  intro e he
  rcases mem_find_top (slug_to_city_state req.to_city_slug)
      ((req.apartment_max_cost : ℚ)) rows e he with ⟨r, hr, p, hkeep, rfl⟩
  rcases (row_keep_eq_some _ _ _ _ _).mp hkeep with ⟨hc, hs, hp, hle⟩
  exact ⟨r, hr, p, hc, hs, hp, hle, rfl, na_of_spec _, na_of_spec _,
    na_of_spec _, na_of_spec _, na_of_spec _, na_of_spec _, na_of_spec _,
    na_of_spec _, na_of_spec _, na_of_spec _, na_of_spec _, na_of_spec _⟩

/-- C10: a CSV row whose price cell is missing or unparsable contributes
nothing to the output (inserting it anywhere leaves the result unchanged),
and every returned listing carries the numeric price parsed from some input
row — never the "NA" sentinel. -/
theorem c10_numeric_prices_only (dest : String) (mp : ℚ)
    (l1 l2 : List Row) (r : Row) :
    (parse_price r = none →
      find_top_apartments dest mp (l1 ++ r :: l2) 10 =
        find_top_apartments dest mp (l1 ++ l2) 10)
    ∧ ∀ e ∈ find_top_apartments dest mp (l1 ++ r :: l2) 10,
        ∃ r2 ∈ l1 ++ r :: l2, ∃ p : ℚ,
          parse_price r2 = some p ∧ e.price = p := by
  constructor
  · intro hp
    unfold find_top_apartments
    have heq : (l1 ++ r :: l2).filterMap (fun r2 =>
        (row_keep (normalize_city_state_input dest).1
          (normalize_city_state_input dest).2 mp r2).map (fun p => (r2, p))) =
        (l1 ++ l2).filterMap (fun r2 =>
        (row_keep (normalize_city_state_input dest).1
          (normalize_city_state_input dest).2 mp r2).map (fun p => (r2, p))) := by
      rw [List.filterMap_append, List.filterMap_append]
      congr 1
      simp [List.filterMap_cons, row_keep_of_bad_price _ _ mp r hp]
    rw [heq]
  · intro e he
    rcases mem_find_top dest mp _ e he with ⟨r2, hr2, p, hkeep, rfl⟩
    rcases (row_keep_eq_some _ _ _ _ _).mp hkeep with ⟨-, -, hp, -⟩
    exact ⟨r2, hr2, p, hp, rfl⟩

/-- C3: for a valid request whose first transport bit signals pre-arranged
travel, the transportation section holds only the skip flag and its reason —
every per-mode slot is absent, whatever the job info and environment, so no
per-mode estimator result reaches the response. -/
theorem c3_skip_transport (env : Env) (req : MoveRequest) (j : Option JobInfo)
    (_hlen : req.transport_flags.length = 6)
    (h : req.no_transport_needed = true) :
    (build_move_plan env req j).transportation =
      { skipped := true
        reason := some "User indicated they already have travel arrangements."
        uhaul_truck := none, own_car := none, rental_car := none
        bus := none, plane := none, moving_help := none } := by
  simp [build_move_plan, h]

/-- C3 witness: a concrete valid request with transport flags "100000". -/
theorem c3_skip_transport_witness :
    (build_move_plan ⟨[], Except.error "no distance", "01/01/2025", "01/02/2025"⟩
      ⟨"madisonwi", "seattlewa", "may", "june", "00", "100000", 1200⟩
      none).transportation =
      { skipped := true
        reason := some "User indicated they already have travel arrangements."
        uhaul_truck := none, own_car := none, rental_car := none
        bus := none, plane := none, moving_help := none } :=
  c3_skip_transport _ _ none rfl (by decide)

/-- C8 counterexample: on a concrete plan build whose job classification
fails, the response's job summary is the ordinary five-field summary with
every field "NA" — no error note stands in its place (the fallback's error
string is dropped by build_job_summary). -/
theorem c8_no_error_note :
    (get_move_plan ⟨[], Except.error "x", "01/01/2025", "01/02/2025"⟩
        ⟨"madisonwi", "seattlewa", "may", "june", "00", "000000", 1200⟩
        (some (Except.error "job analysis blew up"))).job_summary =
      some { job_title := "NA", move_to_destination := "NA",
             start_month := "NA", end_month := "NA",
             duration_months := "NA" } := rfl

/-- C8 (amended): a job-classification failure still yields a complete plan
whose request echo, transportation and housing sections are exactly those of
the same request built without job info, and the job-summary slot is filled
with the all-"NA" summary — the collaborator's error string is not
propagated into the response. -/
theorem c8_graceful_degradation (env : Env) (req : MoveRequest) (e : String) :
    (get_move_plan env req (some (Except.error e))).request =
      (build_move_plan env req none).request
    ∧ (get_move_plan env req (some (Except.error e))).transportation =
      (build_move_plan env req none).transportation
    ∧ (get_move_plan env req (some (Except.error e))).housing =
      (build_move_plan env req none).housing
    ∧ (get_move_plan env req (some (Except.error e))).job_summary =
      some { job_title := "NA", move_to_destination := "NA",
             start_month := "NA", end_month := "NA",
             duration_months := "NA" } :=
  ⟨rfl, rfl, rfl, rfl⟩

end WTM
